import Mathlib

/-!
Shallow embedding of the terraform-provider-zitactl provider core: the
lazily initialised Zitadel client (internal/provider/client), the provider
Configure step (internal/provider/provider.go), and the resource and
data-source CRUD handlers (internal/provider/project, application_oidc,
org). Remote Zitadel services, the generated protobuf enum tables and the
Go standard library (os.Getenv, time.ParseDuration) are modelled as
explicit parameters; Terraform framework attribute values are modelled by
the three-state type TF below.
-/

namespace Zitactl

/-- A Terraform attribute value as the plugin framework represents it:
null, unknown (not yet computed during plan), or a known value. Models
types.String, types.Bool and types.List of strings. -/
inductive TF (α : Type) where
  | null
  | unknown
  | value (v : α)
  deriving DecidableEq

/-- IsNull of the framework value interface. -/
def TF.isNull {α : Type} : TF α → Bool
  | .null => true
  | _ => false

/-- IsUnknown of the framework value interface. -/
def TF.isUnknown {α : Type} : TF α → Bool
  | .unknown => true
  | _ => false

/-- ValueString: the known value, or the empty string when null or unknown. -/
def TF.valueString : TF String → String
  | .value s => s
  | _ => ""

/-- ValueBool: the known value, or false when null or unknown. -/
def TF.valueBool : TF Bool → Bool
  | .value b => b
  | _ => false

/-- ZitactlProviderModel (client/provider_model.go): the provider
configuration data model, with the attributes domain,
skip_tls_verification and service_account_key. -/
structure ZitactlProviderModel where
  domain : TF String
  skipTlsVerification : TF Bool
  serviceAccountKey : TF String
  deriving DecidableEq

/-- The process environment as GetClient reads it: the results of
os.Getenv on the three ZITACTL_* variables (Getenv yields the empty
string for an unset variable). -/
structure Env where
  zitactlDomain : String
  zitactlSkipTlsVerification : String
  zitactlServiceAccountKey : String
  deriving DecidableEq

/-- ClientFactory (client/client_factory.go): builds a client from the
domain, the TLS-skip flag and the service-account key JSON. The type C
stands for the zitadel-go client handle; errors carry their message. -/
def ClientFactory (C : Type) : Type := String → Bool → String → Except String C

/-- ClientInfo (client/client_info.go): provider configuration and factory
for lazy client creation. Nil pointers and nil functions are none. -/
structure ClientInfo (C : Type) where
  config : Option ZitactlProviderModel
  clientFactory : Option (ClientFactory C)
  client : Option C

/-- getUnknownFieldNames (client/client_info.go): the names of the unknown
fields of the provider configuration, in declaration order. -/
def getUnknownFieldNames (data : ZitactlProviderModel) : List String :=
  (if data.domain.isUnknown then ["domain"] else []) ++
    (if data.skipTlsVerification.isUnknown then ["skip_tls_verification"] else []) ++
      (if data.serviceAccountKey.isUnknown then ["service_account_key"] else [])

/-- The outcome of one GetClient call. The Go method has a pointer
receiver, so the embedding also returns the ClientInfo as it stands after
the call, and records whether the client factory was invoked. -/
structure GetClientResult (C : Type) where
  result : Except String C
  info : ClientInfo C
  factoryInvoked : Bool

/-- GetClient (client/client_info.go): creates or returns the Zitadel
client, only when all config values are known. DefaultClientFactory is an
external function (it parses the key JSON and dials the API), passed in
as defaultFactory. -/
def ClientInfo.getClient {C : Type} (ci : ClientInfo C) (env : Env)
    (defaultFactory : ClientFactory C) : GetClientResult C :=
  match ci.config with
  | none => ⟨.error "provider is not configured", ci, false⟩
  | some config =>
    match ci.client with
    | some c => ⟨.ok c, ci, false⟩
    | none =>
      if config.domain.isUnknown || config.skipTlsVerification.isUnknown
          || config.serviceAccountKey.isUnknown then
        ⟨.error ("provider configuration contains unknown values: "
            ++ String.intercalate ", " (getUnknownFieldNames config)), ci, false⟩
      else
        let domain0 := config.domain.valueString
        let domain := if domain0 = "" then env.zitactlDomain else domain0
        if domain = "" then
          ⟨.error "the 'domain' attribute must be set", ci, false⟩
        else
          let skipTlsVerification :=
            if config.skipTlsVerification.isNull then
              (env.zitactlSkipTlsVerification == "true")
                || (env.zitactlSkipTlsVerification == "1")
            else config.skipTlsVerification.valueBool
          let serviceAccountKey0 := config.serviceAccountKey.valueString
          let serviceAccountKey :=
            if serviceAccountKey0 = "" then env.zitactlServiceAccountKey
            else serviceAccountKey0
          if serviceAccountKey = "" then
            ⟨.error "the 'service_account_key' attribute must be set", ci, false⟩
          else
            let factory := ci.clientFactory.getD defaultFactory
            match factory domain skipTlsVerification serviceAccountKey with
            | .error e => ⟨.error ("failed to create Zitadel client: " ++ e), ci, true⟩
            | .ok c => ⟨.ok c, ci, true⟩

/-- A Terraform diagnostic: a summary and detail pair. Every diagnostic
the handlers below emit is an error diagnostic. -/
structure Diagnostic where
  summary : String
  detail : String
  deriving DecidableEq

/-- ZitactlProvider (provider.go): the provider implementation, carrying
the version and the optional injected client factory. -/
structure ZitactlProvider (C : Type) where
  version : String
  clientFactory : Option (ClientFactory C)

/-- The fields of provider.ConfigureResponse that Configure writes. -/
structure ConfigureResponse (C : Type) where
  diagnostics : List Diagnostic
  dataSourceData : Option (ClientInfo C)
  resourceData : Option (ClientInfo C)

/-- Configure (provider.go): the framework decode req.Config.Get is
modelled by its outcome, decoded. On success the raw model is stored in a
ClientInfo (no validation, no client construction) which becomes both the
DataSourceData and the ResourceData. -/
def ZitactlProvider.configure {C : Type} (p : ZitactlProvider C)
    (decoded : Except (List Diagnostic) ZitactlProviderModel) : ConfigureResponse C :=
  match decoded with
  | .error diags => ⟨diags, none, none⟩
  | .ok data =>
    let clientInfo : ClientInfo C := ⟨some data, p.clientFactory, none⟩
    ⟨[], some clientInfo, some clientInfo⟩

/-- gRPC status codes distinguished by the handlers. -/
inductive GrpcCode where
  | notFound
  | other
  deriving DecidableEq

/-- A remote-call error. isStatus models whether status.FromError
recognises the error as a gRPC status; msg models err.Error(). -/
structure RemoteError where
  isStatus : Bool
  code : GrpcCode
  msg : String
  deriving DecidableEq

/-- helper.ConvertEnumList (internal/provider/helper): converts a list of
names into enum values through a generated value map, silently dropping
names the map does not know. The Go map is modelled as a partial
function; the int32 enum values as Int. -/
def convertEnumList (raw : List String) (valueMap : String → Option Int) : List Int :=
  raw.foldl (fun result s =>
    match valueMap s with
    | some val => result ++ [val]
    | none => result) []

/-- helper.ExtractStringList: list.ElementsAs into a Go string slice.
Modelled from the framework: it succeeds exactly on a fully known list
and fails (producing framework conversion diagnostics) on a null or
unknown one. -/
def extractStringList : TF (List String) → Option (List String)
  | .value xs => some xs
  | _ => none

/-- The framework-owned diagnostic ElementsAs appends when a list value
cannot be converted (its exact wording belongs to the framework). -/
def conversionErrorDiag : Diagnostic :=
  ⟨"Value Conversion Error", "list value cannot be converted to a string slice"⟩

/-- helper.ConvertStringSliceToList: a null list for an empty slice, the
known list otherwise. -/
def convertStringSliceToList (strings : List String) : TF (List String) :=
  if strings = [] then .null else .value strings

/-- helper.ConvertEnumSliceToList: protobuf enum values are represented
throughout the embedding by their String() names, so an enum slice is a
slice of names. -/
def convertEnumSliceToList (enums : List String) : TF (List String) :=
  if enums = [] then .null else .value enums

/-- CreateOIDCApplicationRequest (zitadel app/v2beta protobuf): the OIDC
part of a create-application call, enum fields as their int32 values. -/
structure CreateOIDCApplicationRequest where
  redirectUris : List String
  responseTypes : List Int
  grantTypes : List Int
  appType : Int
  authMethodType : Int
  postLogoutRedirectUris : List String
  version : Int
  devMode : Bool
  accessTokenType : Int
  accessTokenRoleAssertion : Bool
  idTokenRoleAssertion : Bool
  idTokenUserinfoAssertion : Bool
  clockSkew : Option Int
  additionalOrigins : List String
  skipNativeAppSuccessPage : Bool
  deriving DecidableEq

/-- CreateApplicationRequest with an OIDC creation request type. -/
structure CreateApplicationRequest where
  projectId : String
  name : String
  oidcRequest : CreateOIDCApplicationRequest
  deriving DecidableEq

/-- The generated client credentials of a create-application response. -/
structure OIDCClientCredentials where
  clientId : String
  clientSecret : String
  deriving DecidableEq

/-- CreateApplicationResponse: the new application id and, for an OIDC
application, its generated credentials. -/
structure CreateApplicationResponse where
  appId : String
  oidcResponse : Option OIDCClientCredentials
  deriving DecidableEq

/-- The OIDC configuration of a fetched application, as Read consumes it
(enum values by their String() names, ClockSkew by its duration string). -/
structure OIDCConfigData where
  grantTypes : List String
  responseTypes : List String
  redirectUris : List String
  postLogoutRedirectUris : List String
  additionalOrigins : List String
  accessTokenRoleAssertion : Bool
  idTokenRoleAssertion : Bool
  idTokenUserinfoAssertion : Bool
  devMode : Bool
  skipNativeAppSuccessPage : Bool
  accessTokenType : String
  appType : String
  authMethodType : String
  version : String
  clockSkew : String
  deriving DecidableEq

/-- A fetched application: its name and optional OIDC configuration. -/
structure AppData where
  name : String
  oidcConfig : Option OIDCConfigData
  deriving DecidableEq

/-- UpdateOIDCApplicationConfigurationRequest: optional proto3 fields are
Option, absent when the handler leaves them unset. -/
structure UpdateOIDCApplicationConfigurationRequest where
  redirectUris : List String
  responseTypes : List Int
  grantTypes : List Int
  accessTokenRoleAssertion : Option Bool
  idTokenRoleAssertion : Option Bool
  idTokenUserinfoAssertion : Option Bool
  devMode : Option Bool
  skipNativeAppSuccessPage : Option Bool
  accessTokenType : Option Int
  appType : Option Int
  authMethodType : Option Int
  version : Option Int
  postLogoutRedirectUris : List String
  additionalOrigins : List String
  clockSkew : Option Int
  deriving DecidableEq

/-- UpdateApplicationRequest: name is a plain proto3 string, left "" when
unchanged; the OIDC configuration request is set only when it changed. -/
structure UpdateApplicationRequest where
  id : String
  projectId : String
  name : String
  oidcConfigurationRequest : Option UpdateOIDCApplicationConfigurationRequest
  deriving DecidableEq

/-- The AppServiceV2Beta calls the application_oidc handlers make,
modelled as abstract remote functions. getApplication takes the request
id and yields GetApp(); deleteApplication takes id and projectId. -/
structure AppService where
  createApplication : CreateApplicationRequest → Except RemoteError CreateApplicationResponse
  getApplication : String → Except RemoteError (Option AppData)
  updateApplication : UpdateApplicationRequest → Except RemoteError Unit
  deleteApplication : String → String → Except RemoteError Unit

/-- A project fetched by GetProject, as the project Read consumes it. -/
structure ProjectData where
  name : String
  projectRoleAssertion : Bool
  state : String
  organizationId : String
  authorizationRequired : Bool
  projectAccessRequired : Bool
  privateLabelingSetting : String
  deriving DecidableEq

/-- CreateProjectRequest (zitadel project/v2beta protobuf). -/
structure CreateProjectRequest where
  name : String
  organizationId : String
  projectRoleAssertion : Bool
  authorizationRequired : Bool
  projectAccessRequired : Bool
  privateLabelingSetting : Int
  deriving DecidableEq

/-- UpdateProjectRequest: pointer fields are Option (helper.Ptr always
supplies them; PrivateLabelingSetting only when set and recognised). -/
structure UpdateProjectRequest where
  id : String
  name : Option String
  projectRoleAssertion : Option Bool
  projectRoleCheck : Option Bool
  hasProjectCheck : Option Bool
  privateLabelingSetting : Option Int
  deriving DecidableEq

/-- The ProjectServiceV2Beta calls the project handlers make.
createProject yields the new project id; getProject takes the project id
and yields GetProject(); deleteProject takes the project id. -/
structure ProjectService where
  createProject : CreateProjectRequest → Except RemoteError String
  getProject : String → Except RemoteError (Option ProjectData)
  updateProject : UpdateProjectRequest → Except RemoteError Unit
  deleteProject : String → Except RemoteError Unit

/-- The AdminService call project Create makes to validate the
organization: getOrgByID takes the org id. -/
structure AdminService where
  getOrgByID : String → Except RemoteError Unit

/-- An organization name query of a ListOrganizations call: the name and
the int32 value of the chosen TextQueryMethod. -/
structure OrganizationNameQuery where
  name : String
  method : Int
  deriving DecidableEq

/-- ListOrganizationsRequest as the orgs data source builds it. -/
structure ListOrganizationsRequest where
  queries : List OrganizationNameQuery
  deriving DecidableEq

/-- The OrganizationServiceV2 call the orgs data source makes,
yielding the ids of the matching organizations. -/
structure OrgService where
  listOrganizations : ListOrganizationsRequest → Except RemoteError (List String)

/-- The zitadel-go client handle as the handlers use it: access to the
remote services. -/
structure ZitadelClient where
  appService : AppService
  projectService : ProjectService
  adminService : AdminService
  orgService : OrgService

/-- The generated protobuf name-to-value maps the handlers consult, plus
the key set of TextQueryMethod_value (used in the invalid-method
diagnostic). All are external generated tables. -/
structure ProtoEnumMaps where
  oidcGrantType : String → Option Int
  oidcResponseType : String → Option Int
  oidcAppType : String → Option Int
  oidcAuthMethodType : String → Option Int
  oidcVersion : String → Option Int
  oidcTokenType : String → Option Int
  privateLabelingSetting : String → Option Int
  textQueryMethod : String → Option Int
  textQueryMethodNames : List String

/-- The int32 value of TEXT_QUERY_METHOD_EQUALS_IGNORE_CASE in the
generated object/v2 bindings (external constant). -/
def TEXT_QUERY_METHOD_EQUALS_IGNORE_CASE : Int := 1

/-- The externals a handler call runs against: the process environment,
the real DefaultClientFactory, the generated enum tables and Go's
time.ParseDuration (yielding nanoseconds). -/
structure World where
  env : Env
  defaultFactory : ClientFactory ZitadelClient
  maps : ProtoEnumMaps
  parseDuration : String → Except String Int

/-- The outcome of a resource or data-source handler: the error
diagnostics it appended, and the response state — some when the handler
wrote (or, for Read, kept) a state, none when it removed the resource
from state or never wrote the response state. -/
structure ResourceResponse (σ : Type) where
  diagnostics : List Diagnostic
  state : Option σ

/-- ApplicationOIDCResourceModel (application_oidc resource file): the
resource data model, lists of strings as TF list values. -/
structure ApplicationOIDCResourceModel where
  name : TF String
  projectId : TF String
  grantTypes : TF (List String)
  redirectUris : TF (List String)
  responseTypes : TF (List String)
  accessTokenRoleAssertion : TF Bool
  accessTokenType : TF String
  appType : TF String
  authMethodType : TF String
  clockSkew : TF String
  idTokenRoleAssertion : TF Bool
  idTokenUserinfoAssertion : TF Bool
  skipNativeAppSuccessPage : TF Bool
  version : TF String
  additionalOrigins : TF (List String)
  devMode : TF Bool
  postLogoutRedirectUris : TF (List String)
  id : TF String
  clientId : TF String
  clientSecret : TF String
  deriving DecidableEq

/-- ApplicationOIDCResource: the resource implementation with its
configured ClientInfo. -/
structure ApplicationOIDCResource where
  clientInfo : ClientInfo ZitadelClient

/-- The unknown-provider-configuration test application_oidc Read makes
before reporting a client error (Config is non-nil and one of the three
fields IsUnknown; resource_read.go lines 32 to 36). -/
def configHasUnknown : Option ZitactlProviderModel → Bool
  | some config =>
    config.domain.isUnknown || config.skipTlsVerification.isUnknown
      || config.serviceAccountKey.isUnknown
  | none => false

/-- Read (application_oidc/resource_read.go). The framework has already
decoded the request state into reqState and initialised the response
state to it. A client error during a refresh with unknown provider
configuration is skipped without a diagnostic, keeping the state; a
NotFound from the remote get removes the resource from state. -/
def ApplicationOIDCResource.read (r : ApplicationOIDCResource) (w : World)
    (reqState : ApplicationOIDCResourceModel) :
    ResourceResponse ApplicationOIDCResourceModel :=
  let data := reqState
  match (r.clientInfo.getClient w.env w.defaultFactory).result with
  | .error errClientCreation =>
    if configHasUnknown r.clientInfo.config then
      ⟨[], some data⟩
    else
      ⟨[⟨"Client configuration not possible!", errClientCreation⟩], some data⟩
  | .ok zitadelClient =>
    let appId := data.id.valueString
    match zitadelClient.appService.getApplication appId with
    | .error err =>
      if err.isStatus = true ∧ err.code = GrpcCode.notFound then
        ⟨[], none⟩
      else
        ⟨[⟨"Error reading OIDC application",
            "Could not read OIDC application " ++ appId ++ ": " ++ err.msg⟩], some data⟩
    | .ok app? =>
      let data :=
        match app? with
        | none => data
        | some app =>
          let data := { data with name := .value app.name }
          match app.oidcConfig with
          | none => data
          | some oidcConfig =>
            { data with
              grantTypes := convertEnumSliceToList oidcConfig.grantTypes
              responseTypes := convertEnumSliceToList oidcConfig.responseTypes
              redirectUris := convertStringSliceToList oidcConfig.redirectUris
              postLogoutRedirectUris :=
                convertStringSliceToList oidcConfig.postLogoutRedirectUris
              additionalOrigins := convertStringSliceToList oidcConfig.additionalOrigins
              accessTokenRoleAssertion := .value oidcConfig.accessTokenRoleAssertion
              idTokenRoleAssertion := .value oidcConfig.idTokenRoleAssertion
              idTokenUserinfoAssertion := .value oidcConfig.idTokenUserinfoAssertion
              devMode := .value oidcConfig.devMode
              skipNativeAppSuccessPage := .value oidcConfig.skipNativeAppSuccessPage
              accessTokenType := .value oidcConfig.accessTokenType
              appType := .value oidcConfig.appType
              authMethodType := .value oidcConfig.authMethodType
              version := .value oidcConfig.version
              clockSkew :=
                if data.clockSkew.isNull = false ∧ data.clockSkew.valueString ≠ "" then
                  .value oidcConfig.clockSkew
                else .null }
      ⟨[], some data⟩

/-- Create (application_oidc resource create file): field conversion, the
remote create, then the refresh read on the freshly written state. -/
def ApplicationOIDCResource.create (r : ApplicationOIDCResource) (w : World)
    (plan : ApplicationOIDCResourceModel) :
    ResourceResponse ApplicationOIDCResourceModel :=
  let data := plan
  match (r.clientInfo.getClient w.env w.defaultFactory).result with
  | .error errClientCreation =>
    ⟨[⟨"Client configuration not possible!", errClientCreation⟩], none⟩
  | .ok zitadelClient =>
    let projectId := data.projectId.valueString
    match extractStringList data.grantTypes with
    | none => ⟨[conversionErrorDiag], none⟩
    | some grantTypesRaw =>
      let grantTypes := convertEnumList grantTypesRaw w.maps.oidcGrantType
      match extractStringList data.responseTypes with
      | none => ⟨[conversionErrorDiag], none⟩
      | some responseTypesRaw =>
        let responseTypes := convertEnumList responseTypesRaw w.maps.oidcResponseType
        match extractStringList data.redirectUris with
        | none => ⟨[conversionErrorDiag], none⟩
        | some redirectUris =>
          let appType : Int :=
            if data.appType.isNull then 0
            else (w.maps.oidcAppType data.appType.valueString).getD 0
          let authMethodType : Int :=
            if data.authMethodType.isNull then 0
            else (w.maps.oidcAuthMethodType data.authMethodType.valueString).getD 0
          match (if data.postLogoutRedirectUris.isNull then some []
              else extractStringList data.postLogoutRedirectUris) with
          | none => ⟨[conversionErrorDiag], none⟩
          | some postLogoutUris =>
            let version : Int :=
              if data.version.isNull then 0
              else (w.maps.oidcVersion data.version.valueString).getD 0
            let accessTokenType : Int :=
              if data.accessTokenType.isNull then 0
              else (w.maps.oidcTokenType data.accessTokenType.valueString).getD 0
            match (if data.additionalOrigins.isNull then some []
                else extractStringList data.additionalOrigins) with
            | none => ⟨[conversionErrorDiag], none⟩
            | some additionalOrigins =>
              match (if data.clockSkew.isNull = false ∧ data.clockSkew.valueString ≠ ""
                  then (w.parseDuration data.clockSkew.valueString).map Option.some
                  else .ok none) with
              | .error e =>
                ⟨[⟨"Invalid ClockSkew", "Could not parse clock_skew duration: " ++ e⟩],
                  none⟩
              | .ok clockSkew =>
                let createReq : CreateApplicationRequest :=
                  { projectId := projectId
                    name := data.name.valueString
                    oidcRequest :=
                      { redirectUris := redirectUris
                        responseTypes := responseTypes
                        grantTypes := grantTypes
                        appType := appType
                        authMethodType := authMethodType
                        postLogoutRedirectUris := postLogoutUris
                        version := version
                        devMode := data.devMode.valueBool
                        accessTokenType := accessTokenType
                        accessTokenRoleAssertion := data.accessTokenRoleAssertion.valueBool
                        idTokenRoleAssertion := data.idTokenRoleAssertion.valueBool
                        idTokenUserinfoAssertion := data.idTokenUserinfoAssertion.valueBool
                        clockSkew := clockSkew
                        additionalOrigins := additionalOrigins
                        skipNativeAppSuccessPage :=
                          data.skipNativeAppSuccessPage.valueBool } }
                match zitadelClient.appService.createApplication createReq with
                | .error err =>
                  ⟨[⟨"Error creating OIDC application",
                      "Could not create OIDC application: " ++ err.msg⟩], none⟩
                | .ok createResp =>
                  let data := { data with id := .value createResp.appId }
                  let data :=
                    match createResp.oidcResponse with
                    | some oidcDetails =>
                      { data with
                        clientId := .value oidcDetails.clientId
                        clientSecret := .value oidcDetails.clientSecret }
                    | none => data
                  r.read w data

/-- updateApplication (application_oidc/resource_update.go): builds and
sends the update request; yields the diagnostics it appended to the
response and the Go error it returns (its message). Extraction failures
of the optional lists append a diagnostic but do not abort. -/
def ApplicationOIDCResource.updateApplication (w : World)
    (appId projectId : String) (data : ApplicationOIDCResourceModel)
    (nameChanged oidcConfigChanged : Bool) (zitadelClient : ZitadelClient) :
    List Diagnostic × Except String Unit :=
  let updateName := if nameChanged then data.name.valueString else ""
  if oidcConfigChanged then
    match extractStringList data.grantTypes with
    | none => ([conversionErrorDiag], .error "failed to convert grant types")
    | some grantTypesRaw =>
      let grantTypes := convertEnumList grantTypesRaw w.maps.oidcGrantType
      match extractStringList data.responseTypes with
      | none => ([conversionErrorDiag], .error "failed to convert response types")
      | some responseTypesRaw =>
        let responseTypes := convertEnumList responseTypesRaw w.maps.oidcResponseType
        match extractStringList data.redirectUris with
        | none => ([conversionErrorDiag], .error "failed to convert redirect URIs")
        | some redirectUris =>
          let accessTokenType : Option Int :=
            if data.accessTokenType.isNull then none
            else w.maps.oidcTokenType data.accessTokenType.valueString
          let appType : Option Int :=
            if data.appType.isNull then none
            else w.maps.oidcAppType data.appType.valueString
          let authMethodType : Option Int :=
            if data.authMethodType.isNull then none
            else w.maps.oidcAuthMethodType data.authMethodType.valueString
          let version : Option Int :=
            if data.version.isNull then none
            else w.maps.oidcVersion data.version.valueString
          let postLogout : List Diagnostic × List String :=
            if data.postLogoutRedirectUris.isNull then ([], [])
            else
              match extractStringList data.postLogoutRedirectUris with
              | some xs => ([], xs)
              | none => ([conversionErrorDiag], [])
          let origins : List Diagnostic × List String :=
            if data.additionalOrigins.isNull then ([], [])
            else
              match extractStringList data.additionalOrigins with
              | some xs => ([], xs)
              | none => ([conversionErrorDiag], [])
          match (if data.clockSkew.isNull = false ∧ data.clockSkew.valueString ≠ ""
              then (w.parseDuration data.clockSkew.valueString).map Option.some
              else .ok none) with
          | .error e =>
            (postLogout.1 ++ origins.1
              ++ [⟨"Invalid ClockSkew", "Could not parse clock_skew duration: " ++ e⟩],
              .error e)
          | .ok clockSkew =>
            let oidcConfig : UpdateOIDCApplicationConfigurationRequest :=
              { redirectUris := redirectUris
                responseTypes := responseTypes
                grantTypes := grantTypes
                accessTokenRoleAssertion := some data.accessTokenRoleAssertion.valueBool
                idTokenRoleAssertion := some data.idTokenRoleAssertion.valueBool
                idTokenUserinfoAssertion := some data.idTokenUserinfoAssertion.valueBool
                devMode := some data.devMode.valueBool
                skipNativeAppSuccessPage := some data.skipNativeAppSuccessPage.valueBool
                accessTokenType := accessTokenType
                appType := appType
                authMethodType := authMethodType
                version := version
                postLogoutRedirectUris := postLogout.2
                additionalOrigins := origins.2
                clockSkew := clockSkew }
            let updateReq : UpdateApplicationRequest :=
              { id := appId, projectId := projectId, name := updateName,
                oidcConfigurationRequest := some oidcConfig }
            match zitadelClient.appService.updateApplication updateReq with
            | .error err => (postLogout.1 ++ origins.1, .error err.msg)
            | .ok _ => (postLogout.1 ++ origins.1, .ok ())
  else
    let updateReq : UpdateApplicationRequest :=
      { id := appId, projectId := projectId, name := updateName,
        oidcConfigurationRequest := none }
    match zitadelClient.appService.updateApplication updateReq with
    | .error err => ([], .error err.msg)
    | .ok _ => ([], .ok ())

/-- Update (application_oidc/resource_update.go): change detection, the
conditional remote update, then the refresh read. When updateApplication
left error diagnostics the refresh is skipped and the written state
kept. -/
def ApplicationOIDCResource.update (r : ApplicationOIDCResource) (w : World)
    (plan state : ApplicationOIDCResourceModel) :
    ResourceResponse ApplicationOIDCResourceModel :=
  let data := plan
  match (r.clientInfo.getClient w.env w.defaultFactory).result with
  | .error errClientCreation =>
    ⟨[⟨"Client configuration not possible!", errClientCreation⟩], none⟩
  | .ok zitadelClient =>
    let appId := data.id.valueString
    let projectId := data.projectId.valueString
    let nameChanged := state.name.valueString != data.name.valueString
    let oidcConfigChanged :=
      (state.devMode != data.devMode) || (state.grantTypes != data.grantTypes)
        || (state.responseTypes != data.responseTypes)
        || (state.redirectUris != data.redirectUris)
        || (state.accessTokenRoleAssertion != data.accessTokenRoleAssertion)
        || (state.idTokenRoleAssertion != data.idTokenRoleAssertion)
        || (state.idTokenUserinfoAssertion != data.idTokenUserinfoAssertion)
        || (state.skipNativeAppSuccessPage != data.skipNativeAppSuccessPage)
        || (state.accessTokenType != data.accessTokenType)
        || (state.appType != data.appType)
        || (state.authMethodType != data.authMethodType)
        || (state.version != data.version)
        || (state.postLogoutRedirectUris != data.postLogoutRedirectUris)
        || (state.additionalOrigins != data.additionalOrigins)
        || (state.clockSkew != data.clockSkew)
    if nameChanged || oidcConfigChanged then
      match ApplicationOIDCResource.updateApplication w appId projectId data
          nameChanged oidcConfigChanged zitadelClient with
      | (ds, .error e) =>
        ⟨ds ++ [⟨"Error updating OIDC application",
            "Could not update OIDC application " ++ appId ++ ": " ++ e⟩], none⟩
      | (ds, .ok _) =>
        if ds = [] then r.read w data else ⟨ds, some data⟩
    else
      r.read w data

/-- Delete (application_oidc resource delete file): NotFound on delete is
tolerated silently; the handler only emits diagnostics. -/
def ApplicationOIDCResource.delete (r : ApplicationOIDCResource) (w : World)
    (reqState : ApplicationOIDCResourceModel) : List Diagnostic :=
  let data := reqState
  match (r.clientInfo.getClient w.env w.defaultFactory).result with
  | .error errClientCreation =>
    [⟨"Client configuration not possible!", errClientCreation⟩]
  | .ok zitadelClient =>
    let appId := data.id.valueString
    let projectId := data.projectId.valueString
    match zitadelClient.appService.deleteApplication appId projectId with
    | .error err =>
      if err.isStatus = true ∧ err.code = GrpcCode.notFound then []
      else
        [⟨"Error deleting OIDC application",
          "Could not delete OIDC application " ++ appId ++ ": " ++ err.msg⟩]
    | .ok _ => []

/-- The diagnostics and state attributes ImportState writes. -/
structure ImportStateResponse where
  diagnostics : List Diagnostic
  projectId : Option String
  id : Option String
  deriving DecidableEq

/-- The worker of stringsSplitColon: walks the characters, accumulating
the current field in reverse. -/
def splitColonAux : List Char → List Char → List String
  | [], acc => [String.mk acc.reverse]
  | c :: cs, acc =>
    if c = ':' then String.mk acc.reverse :: splitColonAux cs []
    else splitColonAux cs (c :: acc)

/-- Go strings.Split with the separator ":", modelled structurally on the
character list. Split never yields an empty list: the empty string yields
[""], and the list has one more element than the string has colons. -/
def stringsSplitColon (s : String) : List String := splitColonAux s.data []

/-- ImportState (application_oidc/resource_import.go): the import id must
split on ":" into exactly two parts, project_id and app_id. -/
def applicationOIDCImportState (reqID : String) : ImportStateResponse :=
  match stringsSplitColon reqID with
  | [projectId, appId] => ⟨[], some projectId, some appId⟩
  | _ =>
    ⟨[⟨"Invalid Import ID",
        "Expected import ID format: 'project_id:app_id', got: " ++ reqID⟩], none, none⟩

/-- ProjectResourceModel (project resource, embedded in the
acceptance-test source). -/
structure ProjectResourceModel where
  name : TF String
  orgId : TF String
  hasProjectCheck : TF Bool
  privateLabelingSetting : TF String
  projectRoleAssertion : TF Bool
  projectRoleCheck : TF Bool
  id : TF String
  state : TF String
  deriving DecidableEq

/-- ProjectResource: the resource implementation with its configured
ClientInfo. -/
structure ProjectResource where
  clientInfo : ClientInfo ZitadelClient

/-- Read (project resource): NotFound removes the resource from state,
any other remote error is reported and the state kept. -/
def ProjectResource.read (r : ProjectResource) (w : World)
    (reqState : ProjectResourceModel) : ResourceResponse ProjectResourceModel :=
  let data := reqState
  match (r.clientInfo.getClient w.env w.defaultFactory).result with
  | .error errClientCreation =>
    ⟨[⟨"Client configuration not possible!", errClientCreation⟩], some data⟩
  | .ok zitadelClient =>
    let projectId := data.id.valueString
    match zitadelClient.projectService.getProject projectId with
    | .error err =>
      if err.isStatus = true ∧ err.code = GrpcCode.notFound then
        ⟨[], none⟩
      else
        ⟨[⟨"Error reading project",
            "Could not read project " ++ projectId ++ ": " ++ err.msg⟩], some data⟩
    | .ok project? =>
      let data :=
        match project? with
        | none => data
        | some p =>
          { data with
            name := .value p.name
            projectRoleAssertion := .value p.projectRoleAssertion
            state := .value p.state
            orgId := .value p.organizationId
            projectRoleCheck := .value p.authorizationRequired
            hasProjectCheck := .value p.projectAccessRequired
            privateLabelingSetting := .value p.privateLabelingSetting }
      ⟨[], some data⟩

/-- Create (project resource): validates the organization, creates the
project, then refreshes through Read. -/
def ProjectResource.create (r : ProjectResource) (w : World)
    (plan : ProjectResourceModel) : ResourceResponse ProjectResourceModel :=
  let data := plan
  match (r.clientInfo.getClient w.env w.defaultFactory).result with
  | .error errClientCreation =>
    ⟨[⟨"Client configuration not possible!", errClientCreation⟩], none⟩
  | .ok zitadelClient =>
    let orgId := data.orgId.valueString
    match zitadelClient.adminService.getOrgByID orgId with
    | .error err =>
      if err.isStatus = true ∧ err.code = GrpcCode.notFound then
        ⟨[⟨"Invalid Organization ID",
            "Organization with ID " ++ orgId
              ++ " does not exist. Please provide a valid organization ID."⟩], none⟩
      else
        ⟨[⟨"Error Validating Organization",
            "Could not validate organization " ++ orgId ++ ": " ++ err.msg⟩], none⟩
    | .ok _ =>
      let createReq : CreateProjectRequest :=
        { name := data.name.valueString
          organizationId := data.orgId.valueString
          projectRoleAssertion := data.projectRoleAssertion.valueBool
          authorizationRequired := data.projectRoleCheck.valueBool
          projectAccessRequired := data.hasProjectCheck.valueBool
          privateLabelingSetting :=
            if data.privateLabelingSetting.isNull then 0
            else (w.maps.privateLabelingSetting
                data.privateLabelingSetting.valueString).getD 0 }
      match zitadelClient.projectService.createProject createReq with
      | .error err =>
        ⟨[⟨"Error creating project", "Could not create project: " ++ err.msg⟩], none⟩
      | .ok newId =>
        let data := { data with id := .value newId }
        r.read w data

/-- Update (project resource): the remote update, then the refresh read. -/
def ProjectResource.update (r : ProjectResource) (w : World)
    (plan : ProjectResourceModel) : ResourceResponse ProjectResourceModel :=
  let data := plan
  match (r.clientInfo.getClient w.env w.defaultFactory).result with
  | .error errClientCreation =>
    ⟨[⟨"Client configuration not possible!", errClientCreation⟩], none⟩
  | .ok zitadelClient =>
    let projectId := data.id.valueString
    let updateReq : UpdateProjectRequest :=
      { id := projectId
        name := some data.name.valueString
        projectRoleAssertion := some data.projectRoleAssertion.valueBool
        projectRoleCheck := some data.projectRoleCheck.valueBool
        hasProjectCheck := some data.hasProjectCheck.valueBool
        privateLabelingSetting :=
          if data.privateLabelingSetting.isNull then none
          else w.maps.privateLabelingSetting data.privateLabelingSetting.valueString }
    match zitadelClient.projectService.updateProject updateReq with
    | .error err =>
      ⟨[⟨"Error updating project",
          "Could not update project " ++ projectId ++ ": " ++ err.msg⟩], none⟩
    | .ok _ => r.read w data

/-- Delete (project resource): NotFound on delete is tolerated silently;
the handler only emits diagnostics. -/
def ProjectResource.delete (r : ProjectResource) (w : World)
    (reqState : ProjectResourceModel) : List Diagnostic :=
  let data := reqState
  match (r.clientInfo.getClient w.env w.defaultFactory).result with
  | .error errClientCreation =>
    [⟨"Client configuration not possible!", errClientCreation⟩]
  | .ok zitadelClient =>
    let projectId := data.id.valueString
    match zitadelClient.projectService.deleteProject projectId with
    | .error err =>
      if err.isStatus = true ∧ err.code = GrpcCode.notFound then []
      else
        [⟨"Error deleting project",
          "Could not delete project " ++ projectId ++ ": " ++ err.msg⟩]
    | .ok _ => []

/-- OrgsDataSourceModel (org/data_source.go): ids is the Go slice that
Read fills with the matching organization ids. -/
structure OrgsDataSourceModel where
  ids : List String
  name : TF String
  nameMethod : TF String
  deriving DecidableEq

/-- OrgsDataSource: the data source implementation with its configured
ClientInfo. -/
structure OrgsDataSource where
  clientInfo : ClientInfo ZitadelClient

/-- Read (org/data_source.go). The method resolution either accepts the
configured name_method through TextQueryMethod_value, reports an invalid
method, or defaults to equals-ignore-case when the attribute is null or
unknown; then one ListOrganizations name query is issued. -/
def OrgsDataSource.read (d : OrgsDataSource) (w : World)
    (reqConfig : OrgsDataSourceModel) : ResourceResponse OrgsDataSourceModel :=
  let data := reqConfig
  match (d.clientInfo.getClient w.env w.defaultFactory).result with
  | .error errClientCreation =>
    ⟨[⟨"Client configuration not possible!", errClientCreation⟩], none⟩
  | .ok zitadelClient =>
    let orgName := data.name.valueString
    match (if data.nameMethod.isNull = false ∧ data.nameMethod.isUnknown = false then
        match w.maps.textQueryMethod data.nameMethod.valueString with
        | some enumValue => .ok enumValue
        | none => .error data.nameMethod.valueString
      else (.ok TEXT_QUERY_METHOD_EQUALS_IGNORE_CASE : Except String Int)) with
    | .error methodStr =>
      ⟨[⟨"Invalid name_method",
          "The provided name_method '" ++ methodStr
            ++ "' is not valid. Valid values are: ["
            ++ String.intercalate " " w.maps.textQueryMethodNames ++ "]"⟩], none⟩
    | .ok queryMethod =>
      match zitadelClient.orgService.listOrganizations ⟨[⟨orgName, queryMethod⟩]⟩ with
      | .error err =>
        ⟨[⟨"Failed to list organizations",
            "Unable to search for organizations with name '" ++ orgName ++ "': "
              ++ err.msg⟩], none⟩
      | .ok result =>
        ⟨[], some { data with ids := result }⟩

/-- An environment with none of the ZITACTL_* variables set. -/
def emptyEnv : Env := ⟨"", "", ""⟩

/-- A factory that always succeeds, as MockSuccessClientFactory does
(with Nat standing in for the client handle). -/
def natOkFactory : ClientFactory Nat := fun _ _ _ => .ok 1

/-- A fully known, valid provider configuration. -/
def knownConfig : ZitactlProviderModel :=
  ⟨.value "example.zitadel.cloud", .value false, .value "key"⟩

/-- The ClientInfo Configure builds for knownConfig with an injected
always-succeeding factory. -/
def knownClientInfo : ClientInfo Nat := ⟨some knownConfig, some natOkFactory, none⟩

/-- An application model with every attribute null. -/
def nullAppModel : ApplicationOIDCResourceModel :=
  ⟨.null, .null, .null, .null, .null, .null, .null, .null, .null, .null,
    .null, .null, .null, .null, .null, .null, .null, .null, .null, .null⟩

/-- A plan whose required lists are known (and empty) and whose other
attributes are null: conversion succeeds and the remote create call is
reached. -/
def validAppPlan : ApplicationOIDCResourceModel :=
  { nullAppModel with
    grantTypes := .value []
    redirectUris := .value []
    responseTypes := .value [] }

/-- A plan renaming the application relative to nullAppModel, so Update
performs the remote call. -/
def renamedAppPlan : ApplicationOIDCResourceModel :=
  { nullAppModel with name := .value "renamed" }

/-- A project model with every attribute null. -/
def nullProjectModel : ProjectResourceModel :=
  ⟨.null, .null, .null, .null, .null, .null, .null, .null⟩

/-- An orgs model with no ids and null attributes. -/
def nullOrgsModel : OrgsDataSourceModel := ⟨[], .null, .null⟩

/-- Enum tables that recognise no name — sufficient for inputs whose enum
attributes are null or empty. -/
def emptyMaps : ProtoEnumMaps :=
  ⟨fun _ => none, fun _ => none, fun _ => none, fun _ => none, fun _ => none,
    fun _ => none, fun _ => none, fun _ => none, []⟩

/-- A world with an empty environment, empty enum tables and failing
externals (never reached where it is used). -/
def plainWorld : World :=
  ⟨emptyEnv, fun _ _ _ => .error "not dialled", emptyMaps, fun _ => .error "bad duration"⟩

/-- A client whose organization lookup succeeds and whose every other
remote call fails with the given error. -/
def failingClient (err : RemoteError) : ZitadelClient :=
  ⟨⟨fun _ => .error err, fun _ => .error err, fun _ => .error err, fun _ _ => .error err⟩,
    ⟨fun _ => .error err, fun _ => .error err, fun _ => .error err, fun _ => .error err⟩,
    ⟨fun _ => .ok ()⟩,
    ⟨fun _ => .error err⟩⟩

/-- A ClientInfo whose GetClient yields the given client from the stored
client field. -/
def cachedInfo (zc : ZitadelClient) : ClientInfo ZitadelClient :=
  ⟨some ⟨.null, .null, .null⟩, none, some zc⟩

/-- Renders two enum-value lists; used by probeClient to expose the
request it received. -/
def encodeEnumLists (gts rts : List Int) : String :=
  String.intercalate "," (gts.map toString) ++ ";"
    ++ String.intercalate "," (rts.map toString)

/-- A client whose create call fails with a message rendering the grant
and response types of the request it received, making the request the
handler built observable in the resulting diagnostic. -/
def probeClient : ZitadelClient :=
  ⟨⟨fun req => .error ⟨false, .other,
        encodeEnumLists req.oidcRequest.grantTypes req.oidcRequest.responseTypes⟩,
      fun _ => .error ⟨false, .other, "unused"⟩,
      fun _ => .error ⟨false, .other, "unused"⟩,
      fun _ _ => .error ⟨false, .other, "unused"⟩⟩,
    ⟨fun _ => .error ⟨false, .other, "unused"⟩,
      fun _ => .error ⟨false, .other, "unused"⟩,
      fun _ => .error ⟨false, .other, "unused"⟩,
      fun _ => .error ⟨false, .other, "unused"⟩⟩,
    ⟨fun _ => .ok ()⟩,
    ⟨fun _ => .error ⟨false, .other, "unused"⟩⟩⟩

/-- C1, evaluated at the failing input: with a fully known, valid stored
configuration the first GetClient call invokes the factory and succeeds,
but the ClientInfo it leaves behind still holds no client, so a second
GetClient call invokes the factory again — the constructed client is
never cached. -/
theorem getClient_never_caches :
    (knownClientInfo.getClient emptyEnv natOkFactory).result = .ok 1 ∧
    (knownClientInfo.getClient emptyEnv natOkFactory).factoryInvoked = true ∧
    (knownClientInfo.getClient emptyEnv natOkFactory).info.client = none ∧
    ((knownClientInfo.getClient emptyEnv natOkFactory).info.getClient emptyEnv
        natOkFactory).factoryInvoked = true :=
  ⟨rfl, rfl, rfl, rfl⟩

/-- GetClient on a stored configuration with an unknown value and no
cached client: the full result, shared by several proofs below. -/
theorem getClient_unknown_eq {C : Type} (ci : ClientInfo C) (env : Env)
    (df : ClientFactory C) (config : ZitactlProviderModel)
    (hconfig : ci.config = some config) (hclient : ci.client = none)
    (hunknown : (config.domain.isUnknown || config.skipTlsVerification.isUnknown
        || config.serviceAccountKey.isUnknown) = true) :
    ci.getClient env df = ⟨.error ("provider configuration contains unknown values: "
        ++ String.intercalate ", " (getUnknownFieldNames config)), ci, false⟩ := by
  unfold ClientInfo.getClient
  rw [hconfig, hclient]
  simp [hunknown]

/-- Membership in getUnknownFieldNames is exactly unknownness of the
corresponding configuration field. -/
theorem getUnknownFieldNames_mem (config : ZitactlProviderModel) :
    ("domain" ∈ getUnknownFieldNames config ↔ config.domain.isUnknown = true) ∧
    ("skip_tls_verification" ∈ getUnknownFieldNames config
      ↔ config.skipTlsVerification.isUnknown = true) ∧
    ("service_account_key" ∈ getUnknownFieldNames config
      ↔ config.serviceAccountKey.isUnknown = true) := by
  cases hd : config.domain.isUnknown <;>
    cases hs : config.skipTlsVerification.isUnknown <;>
      cases hk : config.serviceAccountKey.isUnknown <;>
        simp [getUnknownFieldNames, hd, hs, hk]

/-- C2: with a stored configuration holding at least one unknown value and
no cached client, GetClient fails with the message that names, exactly,
the settings that are unknown, and the client factory is not invoked. -/
theorem getClient_unknown_values {C : Type} (ci : ClientInfo C) (env : Env)
    (df : ClientFactory C) (config : ZitactlProviderModel)
    (hconfig : ci.config = some config) (hclient : ci.client = none)
    (hunknown : (config.domain.isUnknown || config.skipTlsVerification.isUnknown
        || config.serviceAccountKey.isUnknown) = true) :
    (ci.getClient env df).result = .error ("provider configuration contains unknown values: "
        ++ String.intercalate ", " (getUnknownFieldNames config)) ∧
    (ci.getClient env df).factoryInvoked = false ∧
    ("domain" ∈ getUnknownFieldNames config ↔ config.domain.isUnknown = true) ∧
    ("skip_tls_verification" ∈ getUnknownFieldNames config
      ↔ config.skipTlsVerification.isUnknown = true) ∧
    ("service_account_key" ∈ getUnknownFieldNames config
      ↔ config.serviceAccountKey.isUnknown = true) := by
  obtain ⟨h1, h2, h3⟩ := getUnknownFieldNames_mem config
  rw [getClient_unknown_eq ci env df config hconfig hclient hunknown]
  exact ⟨rfl, rfl, h1, h2, h3⟩

/-- Witness for C2 at a concrete input: only the domain is unknown. -/
theorem getClient_unknown_values_witness :
    ((⟨some ⟨.unknown, .value false, .value "k"⟩, none, none⟩ : ClientInfo Nat).getClient
        emptyEnv natOkFactory).result
      = .error ("provider configuration contains unknown values: "
          ++ String.intercalate ", " (getUnknownFieldNames ⟨.unknown, .value false, .value "k"⟩)) :=
  (getClient_unknown_values _ emptyEnv natOkFactory _ rfl rfl (by decide)).1

/-- C3: Configure with a successfully decoded configuration stores the raw
model — unknown and null values included — in a ClientInfo that becomes
both the DataSourceData and the ResourceData, adds no diagnostics, and
constructs no client (the stored client is none; the factory is stored
untouched and never applied). -/
theorem configure_stores_raw_config {C : Type} (p : ZitactlProvider C)
    (decoded : Except (List Diagnostic) ZitactlProviderModel)
    (data : ZitactlProviderModel) (hdec : decoded = .ok data) :
    (p.configure decoded).diagnostics = [] ∧
    (p.configure decoded).dataSourceData = some ⟨some data, p.clientFactory, none⟩ ∧
    (p.configure decoded).resourceData = some ⟨some data, p.clientFactory, none⟩ := by
  subst hdec
  exact ⟨rfl, rfl, rfl⟩

/-- Witness for C3 at a concrete input: a configuration with unknown and
null values is stored raw. -/
theorem configure_stores_raw_config_witness :
    ((⟨"test", none⟩ : ZitactlProvider Nat).configure
        (.ok ⟨.unknown, .null, .unknown⟩)).dataSourceData
      = some ⟨some ⟨.unknown, .null, .unknown⟩, none, none⟩ :=
  (configure_stores_raw_config _ _ ⟨.unknown, .null, .unknown⟩ rfl).2.1

/-- C4: with every stored value known and no cached client, the values
handed to the client factory are exactly: the configured domain, with
ZITACTL_DOMAIN consulted only when it is the empty string; the configured
skip_tls_verification, with ZITACTL_SKIP_TLS_VERIFICATION consulted only
when it is null, in which case the flag is true exactly for "true" or
"1"; and the configured service account key, with
ZITACTL_SERVICE_ACCOUNT_KEY consulted only when it is empty. -/
theorem getClient_env_fallback (ci : ClientInfo (String × Bool × String))
    (env : Env) (df : ClientFactory (String × Bool × String))
    (config : ZitactlProviderModel)
    (hconfig : ci.config = some config) (hclient : ci.client = none)
    (hfactory : ci.clientFactory = some fun d s k => .ok (d, s, k))
    (hknown : (config.domain.isUnknown || config.skipTlsVerification.isUnknown
        || config.serviceAccountKey.isUnknown) = false)
    (hdomain : (if config.domain.valueString = "" then env.zitactlDomain
        else config.domain.valueString) ≠ "")
    (hkey : (if config.serviceAccountKey.valueString = "" then env.zitactlServiceAccountKey
        else config.serviceAccountKey.valueString) ≠ "") :
    (ci.getClient env df).result = .ok
      ((if config.domain.valueString = "" then env.zitactlDomain
          else config.domain.valueString),
        (if config.skipTlsVerification.isNull then
            (env.zitactlSkipTlsVerification == "true")
              || (env.zitactlSkipTlsVerification == "1")
          else config.skipTlsVerification.valueBool),
        (if config.serviceAccountKey.valueString = "" then env.zitactlServiceAccountKey
          else config.serviceAccountKey.valueString)) := by
  unfold ClientInfo.getClient
  rw [hconfig, hclient, hfactory]
  simp only [hknown, Bool.false_eq_true, if_false, if_neg hdomain, if_neg hkey]
  rfl

/-- Witness for C4: empty configured domain falls back to the
environment, a null skip flag reads "1" as true, and a set key ignores
the environment key. -/
theorem getClient_env_fallback_witness :
    ((⟨some ⟨.value "", .null, .value "sak"⟩,
        some (fun d s k => .ok (d, s, k)), none⟩ : ClientInfo (String × Bool × String)).getClient
          ⟨"envd", "1", "envk"⟩ (fun d s k => .ok (d, s, k))).result
      = .ok ("envd", true, "sak") :=
  getClient_env_fallback _ ⟨"envd", "1", "envk"⟩ _ ⟨.value "", .null, .value "sak"⟩
    rfl rfl rfl (by decide) (by decide) (by decide)

/-- C7 counterexample: with all three settings null and an empty
environment, the domain and the service account key both resolve to the
empty string, and GetClient fails with the domain message — not the
service-account-key message the claim requires whenever the key resolves
empty. -/
theorem getClient_domain_error_precedes_key_error :
    ((⟨some ⟨.null, .null, .null⟩, some natOkFactory, none⟩ : ClientInfo Nat).getClient
        emptyEnv natOkFactory).result = .error "the 'domain' attribute must be set" ∧
    ((⟨some ⟨.null, .null, .null⟩, some natOkFactory, none⟩ : ClientInfo Nat).getClient
        emptyEnv natOkFactory).result ≠ .error "the 'service_account_key' attribute must be set" := by
  refine ⟨rfl, fun h => ?_⟩
  rw [show ((⟨some ⟨.null, .null, .null⟩, some natOkFactory, none⟩ : ClientInfo Nat).getClient
      emptyEnv natOkFactory).result = .error "the 'domain' attribute must be set" from rfl] at h
  simp only [Except.error.injEq] at h
  exact absurd h (by decide)

/-- C7 amended: with a known configuration and no cached client, a domain
that resolves empty after the ZITACTL_DOMAIN fallback fails with the
domain message; a non-empty resolved domain with a service account key
that resolves empty after the ZITACTL_SERVICE_ACCOUNT_KEY fallback fails
with the key message; in both cases the client factory is not invoked. -/
theorem getClient_missing_required_settings {C : Type} (ci : ClientInfo C) (env : Env)
    (df : ClientFactory C) (config : ZitactlProviderModel)
    (hconfig : ci.config = some config) (hclient : ci.client = none)
    (hknown : (config.domain.isUnknown || config.skipTlsVerification.isUnknown
        || config.serviceAccountKey.isUnknown) = false) :
    ((if config.domain.valueString = "" then env.zitactlDomain
        else config.domain.valueString) = "" →
      (ci.getClient env df).result = .error "the 'domain' attribute must be set" ∧
      (ci.getClient env df).factoryInvoked = false) ∧
    ((if config.domain.valueString = "" then env.zitactlDomain
        else config.domain.valueString) ≠ "" →
      (if config.serviceAccountKey.valueString = "" then env.zitactlServiceAccountKey
        else config.serviceAccountKey.valueString) = "" →
      (ci.getClient env df).result = .error "the 'service_account_key' attribute must be set" ∧
      (ci.getClient env df).factoryInvoked = false) := by
  unfold ClientInfo.getClient
  rw [hconfig, hclient]
  simp only [hknown, Bool.false_eq_true, if_false]
  constructor
  · intro hd
    rw [if_pos hd]
    exact ⟨rfl, rfl⟩
  · intro hd hk
    rw [if_neg hd, if_pos hk]
    exact ⟨rfl, rfl⟩

/-- Witness for C7 at concrete inputs: all-null settings fail on the
domain; a set domain with a null key and empty environment fails on the
service account key. -/
theorem getClient_missing_required_settings_witness :
    ((⟨some ⟨.null, .null, .null⟩, some natOkFactory, none⟩ : ClientInfo Nat).getClient
        emptyEnv natOkFactory).result = .error "the 'domain' attribute must be set" ∧
    ((⟨some ⟨.value "d", .null, .null⟩, some natOkFactory, none⟩ : ClientInfo Nat).getClient
        emptyEnv natOkFactory).result = .error "the 'service_account_key' attribute must be set" :=
  ⟨((getClient_missing_required_settings _ emptyEnv natOkFactory ⟨.null, .null, .null⟩
      rfl rfl (by decide)).1 (by decide)).1,
    ((getClient_missing_required_settings _ emptyEnv natOkFactory ⟨.value "d", .null, .null⟩
      rfl rfl (by decide)).2 (by decide) (by decide)).1⟩

/-- application_oidc Read when client acquisition fails: the silent-skip
test decides between no diagnostic and the fixed client diagnostic. -/
theorem appRead_client_error (r : ApplicationOIDCResource) (w : World)
    (st : ApplicationOIDCResourceModel) (e : String)
    (hres : (r.clientInfo.getClient w.env w.defaultFactory).result = .error e) :
    r.read w st =
      if configHasUnknown r.clientInfo.config then ⟨[], some st⟩
      else ⟨[⟨"Client configuration not possible!", e⟩], some st⟩ := by
  unfold ApplicationOIDCResource.read
  simp only [hres]

/-- application_oidc Create when client acquisition fails. -/
theorem appCreate_client_error (r : ApplicationOIDCResource) (w : World)
    (plan : ApplicationOIDCResourceModel) (e : String)
    (hres : (r.clientInfo.getClient w.env w.defaultFactory).result = .error e) :
    r.create w plan = ⟨[⟨"Client configuration not possible!", e⟩], none⟩ := by
  unfold ApplicationOIDCResource.create
  simp only [hres]

/-- application_oidc Update when client acquisition fails. -/
theorem appUpdate_client_error (r : ApplicationOIDCResource) (w : World)
    (plan st : ApplicationOIDCResourceModel) (e : String)
    (hres : (r.clientInfo.getClient w.env w.defaultFactory).result = .error e) :
    r.update w plan st = ⟨[⟨"Client configuration not possible!", e⟩], none⟩ := by
  unfold ApplicationOIDCResource.update
  simp only [hres]

/-- application_oidc Delete when client acquisition fails. -/
theorem appDelete_client_error (r : ApplicationOIDCResource) (w : World)
    (st : ApplicationOIDCResourceModel) (e : String)
    (hres : (r.clientInfo.getClient w.env w.defaultFactory).result = .error e) :
    r.delete w st = [⟨"Client configuration not possible!", e⟩] := by
  unfold ApplicationOIDCResource.delete
  simp only [hres]

/-- project Read when client acquisition fails. -/
theorem projRead_client_error (r : ProjectResource) (w : World)
    (st : ProjectResourceModel) (e : String)
    (hres : (r.clientInfo.getClient w.env w.defaultFactory).result = .error e) :
    r.read w st = ⟨[⟨"Client configuration not possible!", e⟩], some st⟩ := by
  unfold ProjectResource.read
  simp only [hres]

/-- project Create when client acquisition fails. -/
theorem projCreate_client_error (r : ProjectResource) (w : World)
    (plan : ProjectResourceModel) (e : String)
    (hres : (r.clientInfo.getClient w.env w.defaultFactory).result = .error e) :
    r.create w plan = ⟨[⟨"Client configuration not possible!", e⟩], none⟩ := by
  unfold ProjectResource.create
  simp only [hres]

/-- project Update when client acquisition fails. -/
theorem projUpdate_client_error (r : ProjectResource) (w : World)
    (plan : ProjectResourceModel) (e : String)
    (hres : (r.clientInfo.getClient w.env w.defaultFactory).result = .error e) :
    r.update w plan = ⟨[⟨"Client configuration not possible!", e⟩], none⟩ := by
  unfold ProjectResource.update
  simp only [hres]

/-- project Delete when client acquisition fails. -/
theorem projDelete_client_error (r : ProjectResource) (w : World)
    (st : ProjectResourceModel) (e : String)
    (hres : (r.clientInfo.getClient w.env w.defaultFactory).result = .error e) :
    r.delete w st = [⟨"Client configuration not possible!", e⟩] := by
  unfold ProjectResource.delete
  simp only [hres]

/-- orgs Read when client acquisition fails. -/
theorem orgsRead_client_error (d : OrgsDataSource) (w : World)
    (cfg : OrgsDataSourceModel) (e : String)
    (hres : (d.clientInfo.getClient w.env w.defaultFactory).result = .error e) :
    d.read w cfg = ⟨[⟨"Client configuration not possible!", e⟩], none⟩ := by
  unfold OrgsDataSource.read
  simp only [hres]

/-- application_oidc Read when the remote get fails: NotFound removes the
resource from state, anything else is reported with the state kept. -/
theorem appRead_remote_error (r : ApplicationOIDCResource) (w : World)
    (st : ApplicationOIDCResourceModel) (zc : ZitadelClient) (err : RemoteError)
    (hok : (r.clientInfo.getClient w.env w.defaultFactory).result = .ok zc)
    (herr : zc.appService.getApplication st.id.valueString = .error err) :
    r.read w st =
      if err.isStatus = true ∧ err.code = GrpcCode.notFound then ⟨[], none⟩
      else ⟨[⟨"Error reading OIDC application",
          "Could not read OIDC application " ++ st.id.valueString ++ ": " ++ err.msg⟩],
        some st⟩ := by
  unfold ApplicationOIDCResource.read
  simp only [hok, herr]

/-- project Read when the remote get fails. -/
theorem projRead_remote_error (r : ProjectResource) (w : World)
    (st : ProjectResourceModel) (zc : ZitadelClient) (err : RemoteError)
    (hok : (r.clientInfo.getClient w.env w.defaultFactory).result = .ok zc)
    (herr : zc.projectService.getProject st.id.valueString = .error err) :
    r.read w st =
      if err.isStatus = true ∧ err.code = GrpcCode.notFound then ⟨[], none⟩
      else ⟨[⟨"Error reading project",
          "Could not read project " ++ st.id.valueString ++ ": " ++ err.msg⟩],
        some st⟩ := by
  unfold ProjectResource.read
  simp only [hok, herr]

/-- application_oidc Delete when the remote delete fails: NotFound is
tolerated, anything else is reported. -/
theorem appDelete_remote_error (r : ApplicationOIDCResource) (w : World)
    (st : ApplicationOIDCResourceModel) (zc : ZitadelClient) (err : RemoteError)
    (hok : (r.clientInfo.getClient w.env w.defaultFactory).result = .ok zc)
    (herr : zc.appService.deleteApplication st.id.valueString st.projectId.valueString
      = .error err) :
    r.delete w st =
      if err.isStatus = true ∧ err.code = GrpcCode.notFound then []
      else [⟨"Error deleting OIDC application",
        "Could not delete OIDC application " ++ st.id.valueString ++ ": " ++ err.msg⟩] := by
  unfold ApplicationOIDCResource.delete
  simp only [hok, herr]

/-- project Delete when the remote delete fails. -/
theorem projDelete_remote_error (r : ProjectResource) (w : World)
    (st : ProjectResourceModel) (zc : ZitadelClient) (err : RemoteError)
    (hok : (r.clientInfo.getClient w.env w.defaultFactory).result = .ok zc)
    (herr : zc.projectService.deleteProject st.id.valueString = .error err) :
    r.delete w st =
      if err.isStatus = true ∧ err.code = GrpcCode.notFound then []
      else [⟨"Error deleting project",
        "Could not delete project " ++ st.id.valueString ++ ": " ++ err.msg⟩] := by
  unfold ProjectResource.delete
  simp only [hok, herr]

/-- C5 counterexample: in the application_oidc Read with a stored provider
configuration holding an unknown value, client acquisition fails (second
conjunct), yet the operation adds no diagnostic at all (first conjunct) —
the failure is not reported under the fixed summary the claim requires of
every operation. -/
theorem appRead_client_failure_unreported :
    ((⟨⟨some ⟨.unknown, .value false, .value "k"⟩, none, none⟩⟩ :
        ApplicationOIDCResource).read plainWorld nullAppModel).diagnostics = [] ∧
    ((⟨some ⟨.unknown, .value false, .value "k"⟩, none, none⟩ :
        ClientInfo ZitadelClient).getClient plainWorld.env
          plainWorld.defaultFactory).result
      = .error "provider configuration contains unknown values: domain" :=
  ⟨rfl, rfl⟩

/-- C5 amended: every client-acquisition failure is reported as a
diagnostic with the fixed summary and the GetClient error as detail —
except in the application_oidc Read when the stored configuration has an
unknown value, where the refresh is silently skipped — while remote-call
failures are reported under operation-specific summaries, one per
operation. -/
theorem client_failures_reported_distinctly :
    (∀ (r : ApplicationOIDCResource) (w : World) (plan : ApplicationOIDCResourceModel)
        (e : String),
      (r.clientInfo.getClient w.env w.defaultFactory).result = .error e →
      r.create w plan = ⟨[⟨"Client configuration not possible!", e⟩], none⟩) ∧
    (∀ (r : ApplicationOIDCResource) (w : World) (st : ApplicationOIDCResourceModel)
        (e : String),
      (r.clientInfo.getClient w.env w.defaultFactory).result = .error e →
      configHasUnknown r.clientInfo.config = false →
      r.read w st = ⟨[⟨"Client configuration not possible!", e⟩], some st⟩) ∧
    (∀ (r : ApplicationOIDCResource) (w : World)
        (plan st : ApplicationOIDCResourceModel) (e : String),
      (r.clientInfo.getClient w.env w.defaultFactory).result = .error e →
      r.update w plan st = ⟨[⟨"Client configuration not possible!", e⟩], none⟩) ∧
    (∀ (r : ApplicationOIDCResource) (w : World) (st : ApplicationOIDCResourceModel)
        (e : String),
      (r.clientInfo.getClient w.env w.defaultFactory).result = .error e →
      r.delete w st = [⟨"Client configuration not possible!", e⟩]) ∧
    (∀ (r : ProjectResource) (w : World) (plan : ProjectResourceModel) (e : String),
      (r.clientInfo.getClient w.env w.defaultFactory).result = .error e →
      r.create w plan = ⟨[⟨"Client configuration not possible!", e⟩], none⟩) ∧
    (∀ (r : ProjectResource) (w : World) (st : ProjectResourceModel) (e : String),
      (r.clientInfo.getClient w.env w.defaultFactory).result = .error e →
      r.read w st = ⟨[⟨"Client configuration not possible!", e⟩], some st⟩) ∧
    (∀ (r : ProjectResource) (w : World) (plan : ProjectResourceModel) (e : String),
      (r.clientInfo.getClient w.env w.defaultFactory).result = .error e →
      r.update w plan = ⟨[⟨"Client configuration not possible!", e⟩], none⟩) ∧
    (∀ (r : ProjectResource) (w : World) (st : ProjectResourceModel) (e : String),
      (r.clientInfo.getClient w.env w.defaultFactory).result = .error e →
      r.delete w st = [⟨"Client configuration not possible!", e⟩]) ∧
    (∀ (d : OrgsDataSource) (w : World) (cfg : OrgsDataSourceModel) (e : String),
      (d.clientInfo.getClient w.env w.defaultFactory).result = .error e →
      d.read w cfg = ⟨[⟨"Client configuration not possible!", e⟩], none⟩) ∧
    (∀ (w : World) (err : RemoteError),
      (ApplicationOIDCResource.create ⟨cachedInfo (failingClient err)⟩ w
          validAppPlan).diagnostics
        = [⟨"Error creating OIDC application",
            "Could not create OIDC application: " ++ err.msg⟩]) ∧
    (∀ (w : World) (err : RemoteError),
      ¬(err.isStatus = true ∧ err.code = GrpcCode.notFound) →
      (ApplicationOIDCResource.read ⟨cachedInfo (failingClient err)⟩ w
          nullAppModel).diagnostics
        = [⟨"Error reading OIDC application",
            "Could not read OIDC application : " ++ err.msg⟩]) ∧
    (∀ (w : World) (err : RemoteError),
      (ApplicationOIDCResource.update ⟨cachedInfo (failingClient err)⟩ w
          renamedAppPlan nullAppModel).diagnostics
        = [⟨"Error updating OIDC application",
            "Could not update OIDC application : " ++ err.msg⟩]) ∧
    (∀ (w : World) (err : RemoteError),
      ¬(err.isStatus = true ∧ err.code = GrpcCode.notFound) →
      ApplicationOIDCResource.delete ⟨cachedInfo (failingClient err)⟩ w nullAppModel
        = [⟨"Error deleting OIDC application",
            "Could not delete OIDC application : " ++ err.msg⟩]) ∧
    (∀ (w : World) (err : RemoteError),
      (ProjectResource.create ⟨cachedInfo (failingClient err)⟩ w
          nullProjectModel).diagnostics
        = [⟨"Error creating project", "Could not create project: " ++ err.msg⟩]) ∧
    (∀ (w : World) (err : RemoteError),
      ¬(err.isStatus = true ∧ err.code = GrpcCode.notFound) →
      (ProjectResource.read ⟨cachedInfo (failingClient err)⟩ w
          nullProjectModel).diagnostics
        = [⟨"Error reading project", "Could not read project : " ++ err.msg⟩]) ∧
    (∀ (w : World) (err : RemoteError),
      (ProjectResource.update ⟨cachedInfo (failingClient err)⟩ w
          nullProjectModel).diagnostics
        = [⟨"Error updating project", "Could not update project : " ++ err.msg⟩]) ∧
    (∀ (w : World) (err : RemoteError),
      ¬(err.isStatus = true ∧ err.code = GrpcCode.notFound) →
      ProjectResource.delete ⟨cachedInfo (failingClient err)⟩ w nullProjectModel
        = [⟨"Error deleting project", "Could not delete project : " ++ err.msg⟩]) ∧
    (∀ (w : World) (err : RemoteError),
      (OrgsDataSource.read ⟨cachedInfo (failingClient err)⟩ w nullOrgsModel).diagnostics
        = [⟨"Failed to list organizations",
            "Unable to search for organizations with name '': " ++ err.msg⟩]) := by
  refine ⟨?_, ?_, ?_, ?_, ?_, ?_, ?_, ?_, ?_, ?_, ?_, ?_, ?_, ?_, ?_, ?_, ?_, ?_⟩
  · exact fun r w plan e hres => appCreate_client_error r w plan e hres
  · intro r w st e hres hcu
    rw [appRead_client_error r w st e hres, hcu]
    simp
  · exact fun r w plan st e hres => appUpdate_client_error r w plan st e hres
  · exact fun r w st e hres => appDelete_client_error r w st e hres
  · exact fun r w plan e hres => projCreate_client_error r w plan e hres
  · exact fun r w st e hres => projRead_client_error r w st e hres
  · exact fun r w plan e hres => projUpdate_client_error r w plan e hres
  · exact fun r w st e hres => projDelete_client_error r w st e hres
  · exact fun d w cfg e hres => orgsRead_client_error d w cfg e hres
  · intro w err
    rfl
  · intro w err hne
    rw [appRead_remote_error ⟨cachedInfo (failingClient err)⟩ w nullAppModel
      (failingClient err) err rfl rfl, if_neg hne]
    rfl
  · intro w err
    rfl
  · intro w err hne
    rw [appDelete_remote_error ⟨cachedInfo (failingClient err)⟩ w nullAppModel
      (failingClient err) err rfl rfl, if_neg hne]
    rfl
  · intro w err
    rfl
  · intro w err hne
    rw [projRead_remote_error ⟨cachedInfo (failingClient err)⟩ w nullProjectModel
      (failingClient err) err rfl rfl, if_neg hne]
    rfl
  · intro w err
    rfl
  · intro w err hne
    rw [projDelete_remote_error ⟨cachedInfo (failingClient err)⟩ w nullProjectModel
      (failingClient err) err rfl rfl, if_neg hne]
    rfl
  · intro w err
    rfl

/-- Witness for C5 at concrete inputs: an unconfigured provider during
Create carries the fixed client summary; a failing remote create carries
the create summary. -/
theorem client_failures_reported_distinctly_witness :
    ApplicationOIDCResource.create ⟨⟨none, none, none⟩⟩ plainWorld nullAppModel
      = ⟨[⟨"Client configuration not possible!", "provider is not configured"⟩], none⟩ ∧
    (ApplicationOIDCResource.create ⟨cachedInfo (failingClient ⟨true, .other, "boom"⟩)⟩
        plainWorld validAppPlan).diagnostics
      = [⟨"Error creating OIDC application",
          "Could not create OIDC application: boom"⟩] := by
  constructor
  · exact (client_failures_reported_distinctly).1 ⟨⟨none, none, none⟩⟩ plainWorld
      nullAppModel "provider is not configured" rfl
  · exact (client_failures_reported_distinctly).2.2.2.2.2.2.2.2.2.1 plainWorld
      ⟨true, .other, "boom"⟩

/-- C6: for the project and application_oidc resources, a NotFound gRPC
status from the remote get during Read removes the resource from state
with no diagnostic; any other remote error adds the read diagnostic and
keeps the state. -/
theorem read_notFound_removes_resource :
    (∀ (r : ProjectResource) (w : World) (st : ProjectResourceModel)
        (zc : ZitadelClient) (err : RemoteError),
      (r.clientInfo.getClient w.env w.defaultFactory).result = .ok zc →
      zc.projectService.getProject st.id.valueString = .error err →
      err.isStatus = true ∧ err.code = GrpcCode.notFound →
      r.read w st = ⟨[], none⟩) ∧
    (∀ (r : ProjectResource) (w : World) (st : ProjectResourceModel)
        (zc : ZitadelClient) (err : RemoteError),
      (r.clientInfo.getClient w.env w.defaultFactory).result = .ok zc →
      zc.projectService.getProject st.id.valueString = .error err →
      ¬(err.isStatus = true ∧ err.code = GrpcCode.notFound) →
      r.read w st = ⟨[⟨"Error reading project",
          "Could not read project " ++ st.id.valueString ++ ": " ++ err.msg⟩],
        some st⟩) ∧
    (∀ (r : ApplicationOIDCResource) (w : World) (st : ApplicationOIDCResourceModel)
        (zc : ZitadelClient) (err : RemoteError),
      (r.clientInfo.getClient w.env w.defaultFactory).result = .ok zc →
      zc.appService.getApplication st.id.valueString = .error err →
      err.isStatus = true ∧ err.code = GrpcCode.notFound →
      r.read w st = ⟨[], none⟩) ∧
    (∀ (r : ApplicationOIDCResource) (w : World) (st : ApplicationOIDCResourceModel)
        (zc : ZitadelClient) (err : RemoteError),
      (r.clientInfo.getClient w.env w.defaultFactory).result = .ok zc →
      zc.appService.getApplication st.id.valueString = .error err →
      ¬(err.isStatus = true ∧ err.code = GrpcCode.notFound) →
      r.read w st = ⟨[⟨"Error reading OIDC application",
          "Could not read OIDC application " ++ st.id.valueString ++ ": " ++ err.msg⟩],
        some st⟩) := by
  refine ⟨?_, ?_, ?_, ?_⟩
  · intro r w st zc err hok herr hnf
    rw [projRead_remote_error r w st zc err hok herr, if_pos hnf]
  · intro r w st zc err hok herr hnf
    rw [projRead_remote_error r w st zc err hok herr, if_neg hnf]
  · intro r w st zc err hok herr hnf
    rw [appRead_remote_error r w st zc err hok herr, if_pos hnf]
  · intro r w st zc err hok herr hnf
    rw [appRead_remote_error r w st zc err hok herr, if_neg hnf]

/-- Witness for C6 at concrete inputs: NotFound removes both resources
from state; a plain error keeps the project state and reports it. -/
theorem read_notFound_removes_resource_witness :
    ProjectResource.read ⟨cachedInfo (failingClient ⟨true, .notFound, "nf"⟩)⟩
        plainWorld nullProjectModel = ⟨[], none⟩ ∧
    ApplicationOIDCResource.read ⟨cachedInfo (failingClient ⟨true, .notFound, "nf"⟩)⟩
        plainWorld nullAppModel = ⟨[], none⟩ ∧
    ProjectResource.read ⟨cachedInfo (failingClient ⟨true, .other, "boom"⟩)⟩
        plainWorld nullProjectModel
      = ⟨[⟨"Error reading project", "Could not read project : boom"⟩],
        some nullProjectModel⟩ := by
  refine ⟨?_, ?_, ?_⟩
  · exact (read_notFound_removes_resource).1 _ plainWorld nullProjectModel
      (failingClient ⟨true, .notFound, "nf"⟩) ⟨true, .notFound, "nf"⟩ rfl rfl ⟨rfl, rfl⟩
  · exact (read_notFound_removes_resource).2.2.1 _ plainWorld nullAppModel
      (failingClient ⟨true, .notFound, "nf"⟩) ⟨true, .notFound, "nf"⟩ rfl rfl ⟨rfl, rfl⟩
  · exact (read_notFound_removes_resource).2.1 _ plainWorld nullProjectModel
      (failingClient ⟨true, .other, "boom"⟩) ⟨true, .other, "boom"⟩ rfl rfl (by simp)

/-- C8: when client acquisition fails and the stored configuration has an
unknown field, the application_oidc Read returns with no diagnostic and
the state unchanged, while the project Read and the orgs Read report the
failure under the fixed client summary. -/
theorem appRead_silently_skips_unknown_refresh :
    (∀ (r : ApplicationOIDCResource) (w : World) (st : ApplicationOIDCResourceModel)
        (config : ZitactlProviderModel),
      r.clientInfo.config = some config → r.clientInfo.client = none →
      configHasUnknown r.clientInfo.config = true →
      r.read w st = ⟨[], some st⟩) ∧
    (∀ (r : ProjectResource) (w : World) (st : ProjectResourceModel)
        (config : ZitactlProviderModel),
      r.clientInfo.config = some config → r.clientInfo.client = none →
      configHasUnknown r.clientInfo.config = true →
      r.read w st = ⟨[⟨"Client configuration not possible!",
          "provider configuration contains unknown values: "
            ++ String.intercalate ", " (getUnknownFieldNames config)⟩], some st⟩) ∧
    (∀ (d : OrgsDataSource) (w : World) (cfg : OrgsDataSourceModel)
        (config : ZitactlProviderModel),
      d.clientInfo.config = some config → d.clientInfo.client = none →
      configHasUnknown d.clientInfo.config = true →
      d.read w cfg = ⟨[⟨"Client configuration not possible!",
          "provider configuration contains unknown values: "
            ++ String.intercalate ", " (getUnknownFieldNames config)⟩], none⟩) := by
  refine ⟨?_, ?_, ?_⟩
  · intro r w st config hc hcl hcu
    have hu : (config.domain.isUnknown || config.skipTlsVerification.isUnknown
        || config.serviceAccountKey.isUnknown) = true := by
      rw [hc] at hcu
      simpa [configHasUnknown] using hcu
    have hg := getClient_unknown_eq r.clientInfo w.env w.defaultFactory config hc hcl hu
    rw [appRead_client_error r w st _ (by rw [hg]), if_pos hcu]
  · intro r w st config hc hcl hcu
    have hu : (config.domain.isUnknown || config.skipTlsVerification.isUnknown
        || config.serviceAccountKey.isUnknown) = true := by
      rw [hc] at hcu
      simpa [configHasUnknown] using hcu
    have hg := getClient_unknown_eq r.clientInfo w.env w.defaultFactory config hc hcl hu
    rw [projRead_client_error r w st _ (by rw [hg])]
  · intro d w cfg config hc hcl hcu
    have hu : (config.domain.isUnknown || config.skipTlsVerification.isUnknown
        || config.serviceAccountKey.isUnknown) = true := by
      rw [hc] at hcu
      simpa [configHasUnknown] using hcu
    have hg := getClient_unknown_eq d.clientInfo w.env w.defaultFactory config hc hcl hu
    rw [orgsRead_client_error d w cfg _ (by rw [hg])]

/-- Witness for C8 at a concrete input: an unknown service account key
makes the application_oidc Read a silent no-op while the project Read
reports the client failure. -/
theorem appRead_silently_skips_unknown_refresh_witness :
    ApplicationOIDCResource.read ⟨⟨some ⟨.value "d", .null, .unknown⟩, none, none⟩⟩
        plainWorld nullAppModel = ⟨[], some nullAppModel⟩ ∧
    ProjectResource.read ⟨⟨some ⟨.value "d", .null, .unknown⟩, none, none⟩⟩
        plainWorld nullProjectModel
      = ⟨[⟨"Client configuration not possible!",
          "provider configuration contains unknown values: service_account_key"⟩],
        some nullProjectModel⟩ := by
  constructor
  · exact (appRead_silently_skips_unknown_refresh).1 _ plainWorld nullAppModel
      ⟨.value "d", .null, .unknown⟩ rfl rfl (by decide)
  · exact (appRead_silently_skips_unknown_refresh).2.1 _ plainWorld nullProjectModel
      ⟨.value "d", .null, .unknown⟩ rfl rfl (by decide)

/-- C9: ImportState accepts exactly the import ids that split on ":" into
two parts — writing the first to project_id and the second to id, empty
parts included — and rejects every other id with the Invalid Import ID
diagnostic, writing no attribute. -/
theorem importState_splits_exactly_two (reqID : String) :
    (∀ p a, stringsSplitColon reqID = [p, a] →
      applicationOIDCImportState reqID = ⟨[], some p, some a⟩) ∧
    ((∀ p a, stringsSplitColon reqID ≠ [p, a]) →
      applicationOIDCImportState reqID =
        ⟨[⟨"Invalid Import ID",
            "Expected import ID format: 'project_id:app_id', got: " ++ reqID⟩],
          none, none⟩) := by
  constructor
  · intro p a h
    unfold applicationOIDCImportState
    rw [h]
  · intro h
    unfold applicationOIDCImportState
    rcases hs : stringsSplitColon reqID with _ | ⟨x, _ | ⟨y, _ | ⟨z, t⟩⟩⟩
    · rfl
    · rfl
    · exact absurd hs (h x y)
    · rfl

/-- Witness for C9 at concrete inputs: the id ":" yields two empty parts
and is accepted; "abc" has no colon and is rejected. -/
theorem importState_splits_exactly_two_witness :
    applicationOIDCImportState ":" = ⟨[], some "", some ""⟩ ∧
    applicationOIDCImportState "abc" =
      ⟨[⟨"Invalid Import ID",
          "Expected import ID format: 'project_id:app_id', got: abc"⟩],
        none, none⟩ := by
  constructor
  · exact (importState_splits_exactly_two ":").1 "" "" (by decide)
  · refine (importState_splits_exactly_two "abc").2 ?_
    intro p a h
    rw [show stringsSplitColon "abc" = ["abc"] from by decide] at h
    exact absurd h (by simp)

/-- The fold of ConvertEnumList with an arbitrary accumulator. -/
theorem convertEnumList_foldl_aux (valueMap : String → Option Int)
    (raw : List String) :
    ∀ (acc : List Int),
      raw.foldl (fun result s =>
        match valueMap s with
        | some val => result ++ [val]
        | none => result) acc = acc ++ raw.filterMap valueMap := by
  induction raw with
  | nil => intro acc; simp
  | cons x xs ih =>
    intro acc
    cases h : valueMap x with
    | some val =>
      simp only [List.foldl_cons, List.filterMap_cons, h]
      rw [ih]
      simp
    | none =>
      simp only [List.foldl_cons, List.filterMap_cons, h]
      exact ih acc

/-- C10: ConvertEnumList keeps, in input order, exactly the names its
value map recognises (it is filterMap over the map), and Create passes
its output as the grant and response types of the remote request — shown
through a probe client that renders the request it received — so
unrecognised names are silently omitted rather than reported. -/
theorem convertEnumList_drops_unrecognized :
    (∀ (raw : List String) (valueMap : String → Option Int),
      convertEnumList raw valueMap = raw.filterMap valueMap) ∧
    (∀ (w : World) (gts rts : List String),
      (ApplicationOIDCResource.create ⟨cachedInfo probeClient⟩ w
          { nullAppModel with
            grantTypes := .value gts
            redirectUris := .value []
            responseTypes := .value rts }).diagnostics
        = [⟨"Error creating OIDC application",
            "Could not create OIDC application: "
              ++ encodeEnumLists (convertEnumList gts w.maps.oidcGrantType)
                (convertEnumList rts w.maps.oidcResponseType)⟩]) := by
  constructor
  · intro raw valueMap
    simpa [convertEnumList] using convertEnumList_foldl_aux valueMap raw []
  · intro w gts rts
    rfl

end Zitactl
